import Mathlib

/-!
Verification of the global-lang-serv-desk repository.

This file shallowly embeds the call-session signaling operations
(CallerDashboard.tsx / AgentDashboard.tsx), the mock WebSocket backend
(backend/server.js) and the serverless route handlers (lib/realtime.ts and
the translate route) as Lean definitions, and proves properties of them.
-/

namespace GLS

/-- Status values of a `call_sessions` row, as in the Database type of the
supabase client module (`waiting | ringing | connected | ended`). -/
inductive SessionStatus
  | waiting
  | ringing
  | connected
  | ended
deriving DecidableEq, Repr

/-- Position of a status in the signaling order
waiting → ringing → connected → ended. -/
def SessionStatus.rank : SessionStatus → Nat
  | .waiting => 0
  | .ringing => 1
  | .connected => 2
  | .ended => 3

/-- A row of the `call_sessions` table, with the columns of the Database
type in the supabase client module.  Identifiers and timestamps are
modelled as natural numbers. -/
structure CallSession where
  id : Nat
  caller_id : Nat
  agent_id : Option Nat
  status : SessionStatus
  caller_language : String
  agent_language : Option String
  started_at : Nat
  ended_at : Option Nat
  duration : Option Nat
deriving DecidableEq, Repr

/-- The insert performed by `startCall` in CallerDashboard.tsx: a fresh row
with `caller_id`, `status: 'waiting'` and `caller_language`; the remaining
columns take their defaults. -/
def startCallInsert (callerId : Nat) (callerLang : String) (sid now : Nat) :
    CallSession :=
  { id := sid
    caller_id := callerId
    agent_id := none
    status := .waiting
    caller_language := callerLang
    agent_language := none
    started_at := now
    ended_at := none
    duration := none }

/-- The update performed by `handleIncomingCall` in AgentDashboard.tsx:
`{ status: 'ringing', agent_id: user.id, agent_language: language }`
applied to the row matched by `.eq('id', session.id)`. -/
def handleIncomingCallUpdate (agentId : Nat) (agentLang : String)
    (s : CallSession) : CallSession :=
  { s with status := .ringing
           agent_id := some agentId
           agent_language := some agentLang }

/-- The update performed by `answerCall` in AgentDashboard.tsx:
`{ status: 'connected' }`. -/
def answerCallUpdate (s : CallSession) : CallSession :=
  { s with status := .connected }

/-- The update performed by `endCall` (identical in CallerDashboard.tsx and
AgentDashboard.tsx): `{ status: 'ended', ended_at: now, duration }`. -/
def endCallUpdate (now dur : Nat) (s : CallSession) : CallSession :=
  { s with status := .ended
           ended_at := some now
           duration := some dur }

/-- The agent component's local `callState` (AgentDashboard.tsx). -/
inductive AgentCallState
  | idle
  | incoming
  | connected
  | ended
deriving DecidableEq, Repr

/-- The caller component's local `callState` (CallerDashboard.tsx). -/
inductive CallerCallState
  | idle
  | waiting
  | ringing
  | connected
  | ended
deriving DecidableEq, Repr

/-- The `callState` and `isAvailable` values captured by the closure of
the `postgres_changes` INSERT callback when `listenForIncomingCalls`
installed the subscription.  The `useEffect` that installs it has
dependencies `[user, isAvailable]` only, so the subscription — and this
snapshot — is not refreshed when `callState` changes: the callback keeps
comparing the captured values (a React stale closure), not the agent's
state at delivery time. -/
structure AgentSub where
  snapCallState : AgentCallState
  snapAvail : Bool
deriving DecidableEq, Repr

/-- The outcome of one run of the INSERT callback: the session row
afterwards, the agent's local call state afterwards, and whether the
agent claimed the session (ran `handleIncomingCall`). -/
structure SubCallbackResult where
  session : CallSession
  callState : AgentCallState
  claimed : Bool
deriving DecidableEq, Repr

/-- The body of the `postgres_changes` INSERT callback installed by
`listenForIncomingCalls` in AgentDashboard.tsx.  The guard
`callState === 'idle' && isAvailable` reads the values the closure
captured at subscription time (`snap`), not the agent's delivery-time
state `cur`; when it passes, `handleIncomingCall` runs: the local state
becomes `incoming` (whatever `cur` was) and the ringing update is applied
to the row.  Otherwise nothing happens. -/
def onWaitingInsert (snap : AgentSub) (cur : AgentCallState)
    (agentId : Nat) (language : String) (s : CallSession) :
    SubCallbackResult :=
  if snap.snapCallState = .idle ∧ snap.snapAvail = true then
    ⟨handleIncomingCallUpdate agentId language s, .incoming, true⟩
  else
    ⟨s, cur, false⟩

/-- `getTargetLanguage` from backend/server.js:
`sourceLanguage === 'marathi' ? 'spanish' : 'marathi'`. -/
def getTargetLanguage (sourceLanguage : String) : String :=
  if sourceLanguage = "marathi" then "spanish" else "marathi"

/-- The single quote character, used to spell string literals of the
source that quote field names. -/
def sq : String := String.singleton (Char.ofNat 39)

/-! ## The mock WebSocket backend (backend/server.js) -/

/-- The fixed Marathi greeting string hard-coded in backend/server.js. -/
def mrGreeting : String := "नमस्कार, मला मदत हवी आहे"

/-- The fixed Spanish greeting string hard-coded in backend/server.js. -/
def esGreeting : String := "Hola, necesito ayuda"

/-- Result shape of the mock `processASR`. -/
structure ASRResult where
  text : String
  confidence : ℚ
deriving DecidableEq, Repr

/-- Mock `processASR` from backend/server.js.  The promise resolves after a
fixed `setTimeout`; we model it as the pair (delay in ms, result).  The
resolved text is `language === 'marathi' ? mrGreeting : esGreeting` and the
confidence is always 0.95; the audio data is never inspected. -/
def processASR (audioData language : String) : Nat × ASRResult :=
  (1000, { text := if language = "marathi" then mrGreeting else esGreeting
           confidence := 95 / 100 })

/-- Result shape of the mock `processTranslation`. -/
structure TranslationResult where
  translatedText : String
  confidence : ℚ
deriving DecidableEq, Repr

/-- The `translations` lookup table inside `processTranslation`, keyed by
the string `sourceLanguage + '-' + targetLanguage`. -/
def translationsTable (key : String) : Option String :=
  if key = "marathi-spanish" then some esGreeting
  else if key = "spanish-marathi" then some mrGreeting
  else none

/-- Mock `processTranslation` from backend/server.js, as (delay, result):
it resolves after 500 ms with the table entry for
`sourceLanguage-targetLanguage` (falling back to the fixed string
`Translation not available`) and confidence 0.90; the input text is never
inspected. -/
def processTranslation (text sourceLanguage targetLanguage : String) :
    Nat × TranslationResult :=
  (500,
   { translatedText :=
       (translationsTable (sourceLanguage ++ "-" ++ targetLanguage)).getD
         "Translation not available"
     confidence := 90 / 100 })

/-- Result shape of the mock `processTTS`. -/
structure TTSResult where
  audioUrl : String
  duration : Nat
deriving DecidableEq, Repr

/-- Mock `processTTS` from backend/server.js, as (delay, result): it
resolves after 800 ms with an audio URL built from `Date.now()` at
resolution time (passed here as `resolveMs`). -/
def processTTS (text language : String) (resolveMs : Nat) : Nat × TTSResult :=
  (800, { audioUrl := "/api/tts/audio/" ++ toString resolveMs ++ ".wav"
          duration := 2000 })

/-- A server-to-client WebSocket message (the JSON payloads the backend
sends, by their `type` field). -/
inductive ServerMsg
  | asrResult (text : String) (confidence : ℚ)
  | translationResult (sourceText translatedText : String) (confidence : ℚ)
  | ttsReady (audioUrl text : String)
  | errorReply (message : String)
deriving DecidableEq, Repr

/-- A connected WebSocket client as the backend sees it: its id, its
`ws.role` field (a raw string, initially null), and whether
`readyState === WebSocket.OPEN`. -/
structure WsClient where
  id : Nat
  role : Option String
  readyStateOpen : Bool
deriving DecidableEq, Repr

/-- The `clients` registry of backend/server.js: one set per role key. -/
structure ClientsByRole where
  caller : List WsClient
  agent : List WsClient
deriving DecidableEq, Repr

/-- A send performed by the backend: at which millisecond (relative to the
arrival of the triggering message), to which client id, which message. -/
structure TimedSend where
  atMs : Nat
  toClient : Nat
  msg : ServerMsg
deriving DecidableEq, Repr

/-- `handleAudioChunk` from backend/server.js, modelled as the list of
sends it performs.  `asrConnected` is whether `services.asr` is non-null;
`senderRole` is the sender's `ws.role` (a raw string or null); `baseMs` is
the arrival time of the `audio_chunk` message.  Mirrors the source: ASR,
then (if the text is truthy) the `asr_result` send and translation, then
(if truthy) the `translation_result` send and TTS, then (if the URL is
truthy) a `tts_ready` send to every OPEN client of the target role, where
`targetRole = ws.role === 'caller' ? 'agent' : 'caller'`. -/
def handleAudioChunk (asrConnected : Bool) (senderId : Nat)
    (senderRole : Option String) (cl : ClientsByRole)
    (audioData language : String) (baseMs : Nat) : List TimedSend :=
  if asrConnected = true then
    let asrStep := processASR audioData language
    let t1 := baseMs + asrStep.1
    if asrStep.2.text ≠ "" then
      let trStep := processTranslation asrStep.2.text language
        (getTargetLanguage language)
      let t2 := t1 + trStep.1
      if trStep.2.translatedText ≠ "" then
        let ttsStep := processTTS trStep.2.translatedText
          (getTargetLanguage language) (t2 + 800)
        let t3 := t2 + ttsStep.1
        if ttsStep.2.audioUrl ≠ "" then
          let targetClients :=
            if senderRole = some "caller" then cl.agent else cl.caller
          ({ atMs := t1, toClient := senderId
             msg := .asrResult asrStep.2.text asrStep.2.confidence } ::
           { atMs := t2, toClient := senderId
             msg := .translationResult asrStep.2.text
               trStep.2.translatedText trStep.2.confidence } ::
           (targetClients.filter (fun c => c.readyStateOpen = true)).map
             (fun c => { atMs := t3, toClient := c.id
                         msg := .ttsReady ttsStep.2.audioUrl
                           trStep.2.translatedText }))
        else
          [{ atMs := t1, toClient := senderId
             msg := .asrResult asrStep.2.text asrStep.2.confidence },
           { atMs := t2, toClient := senderId
             msg := .translationResult asrStep.2.text
               trStep.2.translatedText trStep.2.confidence }]
      else
        [{ atMs := t1, toClient := senderId
           msg := .asrResult asrStep.2.text asrStep.2.confidence }]
    else []
  else []

/-! ## formatDuration (CallerDashboard.tsx and AgentDashboard.tsx) -/

/-- JavaScript `padStart(2, '0')` on a string. -/
def padStart2 (s : String) : String :=
  if s.length ≥ 2 then s
  else String.mk (List.replicate (2 - s.length) (Char.ofNat 48)) ++ s

/-- `formatDuration` as defined in CallerDashboard.tsx. -/
def callerFormatDuration (seconds : Nat) : String :=
  let mins := seconds / 60
  let secs := seconds % 60
  padStart2 (toString mins) ++ ":" ++ padStart2 (toString secs)

/-- `formatDuration` as defined in AgentDashboard.tsx. -/
def agentFormatDuration (seconds : Nat) : String :=
  let mins := seconds / 60
  let secs := seconds % 60
  padStart2 (toString mins) ++ ":" ++ padStart2 (toString secs)

/-- The format described by the claim: floor(s/60) left-padded with zeros
to at least two digits, a colon, and s mod 60 left-padded to two digits.
Stated independently of `padStart2`, via `List.replicate`. -/
def claimedFormatDuration (s : Nat) : String :=
  let m := Nat.repr (s / 60)
  let r := Nat.repr (s % 60)
  String.mk (List.replicate (2 - m.length) (Char.ofNat 48) ++ m.data
    ++ [Char.ofNat 58] ++ List.replicate (2 - r.length) (Char.ofNat 48)
    ++ r.data)

/-! ## Helper lemmas -/

/-- Splitting a list around a distinguished element that occurs in neither
side is unique. -/
lemma append_cons_inj {α : Type} [DecidableEq α] (x : α) :
    ∀ (s u t v : List α), x ∉ s → x ∉ u →
      s ++ x :: t = u ++ x :: v → s = u ∧ t = v := by
  intro s
  induction s with
  | nil =>
    intro u t v _ hu h
    cases u with
    | nil => simpa using h
    | cons b u =>
      simp only [List.nil_append, List.cons_append, List.cons.injEq] at h
      exact absurd (h.1 ▸ List.mem_cons_self b u) (by simpa [h.1] using hu)
  | cons a s ih =>
    intro u t v hs hu h
    cases u with
    | nil =>
      simp only [List.cons_append, List.nil_append, List.cons.injEq] at h
      exact absurd (h.1 ▸ List.mem_cons_self a s) (by simpa [h.1] using hs)
    | cons b u =>
      simp only [List.cons_append, List.cons.injEq] at h
      obtain ⟨rfl, h2⟩ := h
      have := ih u t v (fun hm => hs (List.mem_cons_of_mem _ hm))
        (fun hm => hu (List.mem_cons_of_mem _ hm)) h2
      exact ⟨by rw [this.1], this.2⟩

/-- The character data underlying `padStart2`. -/
lemma padStart2_data (s : String) :
    (padStart2 s).data
      = List.replicate (2 - s.length) (Char.ofNat 48) ++ s.data := by
  unfold padStart2
  by_cases h : s.length ≥ 2
  · simp [h, Nat.sub_eq_zero_of_le h]
  · simp [h, String.data_append]

/-- The hyphen-joined key determines the language pair when it equals one
of the two table keys (which contain a single hyphen). -/
lemma key_split (src tgt a b : String)
    (ha : (Char.ofNat 45) ∉ a.data) (hb : (Char.ofNat 45) ∉ b.data)
    (h : src ++ "-" ++ tgt = a ++ String.singleton (Char.ofNat 45) ++ b) :
    src = a ∧ tgt = b := by
  have hd : src.data ++ (Char.ofNat 45) :: tgt.data
      = a.data ++ (Char.ofNat 45) :: b.data := by
    have := congrArg String.data h
    simpa [String.data_append, String.singleton] using this
  have hs : (Char.ofNat 45) ∉ src.data := by
    intro hm
    have hc := congrArg (List.count (Char.ofNat 45)) hd
    simp only [List.count_append, List.count_cons] at hc
    have h1 : 1 ≤ List.count (Char.ofNat 45) src.data :=
      List.one_le_count_iff.mpr hm
    have h2 : List.count (Char.ofNat 45) a.data = 0 :=
      List.count_eq_zero.mpr ha
    have h3 : List.count (Char.ofNat 45) b.data = 0 :=
      List.count_eq_zero.mpr hb
    omega
  have := append_cons_inj (Char.ofNat 45) src.data a.data tgt.data b.data
    hs ha hd
  exact ⟨String.ext this.1, String.ext this.2⟩

/-- The translated text produced by the mock backend pipeline for a given
source language, after pairing it with `getTargetLanguage`. -/
lemma pipeline_translated (language : String) :
    (processTranslation ((processASR "x" language).2.text) language
        (getTargetLanguage language)).2.translatedText =
      if language = "marathi" then esGreeting
      else if language = "spanish" then mrGreeting
      else "Translation not available" := by
  by_cases h1 : language = "marathi"
  · subst h1; rfl
  · by_cases h2 : language = "spanish"
    · subst h2; rfl
    · have htgt : getTargetLanguage language = "marathi" := by
        simp [getTargetLanguage, h1]
      have hk1 : language ++ "-" ++ getTargetLanguage language
          ≠ "marathi-spanish" := by
        intro h
        have : "marathi-spanish"
            = "marathi" ++ String.singleton (Char.ofNat 45) ++ "spanish" :=
          by rfl
        have := key_split language (getTargetLanguage language)
          "marathi" "spanish" (by decide) (by decide) (by rw [h, this])
        exact h1 this.1
      have hk2 : language ++ "-" ++ getTargetLanguage language
          ≠ "spanish-marathi" := by
        intro h
        have : "spanish-marathi"
            = "spanish" ++ String.singleton (Char.ofNat 45) ++ "marathi" :=
          by rfl
        have := key_split language (getTargetLanguage language)
          "spanish" "marathi" (by decide) (by decide) (by rw [h, this])
        exact h2 this.1
      simp [processTranslation, translationsTable, hk1, hk2, h1, h2]

/-! ## Claim theorems -/

/-- C7: the session-row update in `handleIncomingCall` writes only
`status`, `agent_id` and `agent_language`; every other column of the
`call_sessions` row (`caller_id`, `caller_language`, `started_at`,
`ended_at`, `duration`, `id`) is left unchanged. -/
theorem handleIncomingCall_frame (agentId : Nat) (agentLang : String)
    (s : CallSession) :
    (handleIncomingCallUpdate agentId agentLang s).status = .ringing ∧
    (handleIncomingCallUpdate agentId agentLang s).agent_id = some agentId ∧
    (handleIncomingCallUpdate agentId agentLang s).agent_language
      = some agentLang ∧
    (handleIncomingCallUpdate agentId agentLang s).id = s.id ∧
    (handleIncomingCallUpdate agentId agentLang s).caller_id = s.caller_id ∧
    (handleIncomingCallUpdate agentId agentLang s).caller_language
      = s.caller_language ∧
    (handleIncomingCallUpdate agentId agentLang s).started_at
      = s.started_at ∧
    (handleIncomingCallUpdate agentId agentLang s).ended_at = s.ended_at ∧
    (handleIncomingCallUpdate agentId agentLang s).duration = s.duration := by
  refine ⟨rfl, rfl, rfl, rfl, rfl, rfl, rfl, rfl, rfl⟩

/-- C8: `getTargetLanguage` maps marathi to spanish and everything else to
marathi; restricted to marathi/spanish it is an involution, and for every
other language the round trip yields spanish, not the language itself. -/
theorem getTargetLanguage_involution (x : String) :
    getTargetLanguage "marathi" = "spanish" ∧
    (x ≠ "marathi" → getTargetLanguage x = "marathi") ∧
    getTargetLanguage (getTargetLanguage "marathi") = "marathi" ∧
    getTargetLanguage (getTargetLanguage "spanish") = "spanish" ∧
    (x ≠ "marathi" → x ≠ "spanish" →
      getTargetLanguage (getTargetLanguage x) = "spanish" ∧
      getTargetLanguage (getTargetLanguage x) ≠ x) := by
  refine ⟨rfl, ?_, rfl, rfl, ?_⟩
  · intro h; simp [getTargetLanguage, h]
  · intro h1 h2
    have : getTargetLanguage x = "marathi" := by simp [getTargetLanguage, h1]
    rw [this]
    exact ⟨rfl, fun he => h2 he.symm⟩

/-- C8 witness: instantiation at the language `english`. -/
theorem getTargetLanguage_involution_witness :
    "english" ≠ "marathi" ∧
    getTargetLanguage (getTargetLanguage "english") = "spanish" := by
  refine ⟨by decide, ?_⟩
  exact ((getTargetLanguage_involution "english").2.2.2.2
    (by decide) (by decide)).1

/-- C9: the two `formatDuration` functions, defined separately in
CallerDashboard.tsx and AgentDashboard.tsx, are extensionally equal, and
both produce the claimed format: minutes left-padded with zeros to at
least two digits, a colon, and seconds mod 60 left-padded to two digits. -/
theorem formatDuration_equiv (seconds : Nat) :
    callerFormatDuration seconds = agentFormatDuration seconds ∧
    callerFormatDuration seconds = claimedFormatDuration seconds := by
  refine ⟨rfl, ?_⟩
  apply String.ext
  have hm := padStart2_data (toString (seconds / 60))
  have hr := padStart2_data (toString (seconds % 60))
  have hcolon : (":" : String).data = [Char.ofNat 58] := by decide
  simp only [callerFormatDuration, claimedFormatDuration,
    String.data_append, hm, hr, hcolon]
  simp [List.append_assoc, toString]

/-- The mock ASR transcript is never the empty string. -/
lemma asr_text_ne (audioData language : String) :
    (processASR audioData language).2.text ≠ "" := by
  simp only [processASR]
  by_cases h : language = "marathi" <;> simp [h, mrGreeting, esGreeting]

/-- The mock translated text is never the empty string. -/
lemma translated_ne (t src tgt : String) :
    (processTranslation t src tgt).2.translatedText ≠ "" := by
  simp only [processTranslation, translationsTable]
  by_cases h1 : src ++ "-" ++ tgt = "marathi-spanish" <;>
    by_cases h2 : src ++ "-" ++ tgt = "spanish-marathi" <;>
      simp [h1, h2, esGreeting, mrGreeting]

/-- The mock TTS audio URL is never the empty string. -/
lemma tts_url_ne (t l : String) (ms : Nat) :
    (processTTS t l ms).2.audioUrl ≠ "" := by
  simp only [processTTS]
  intro h
  have := congrArg String.data h
  simp [String.data_append] at this

/-- The sends described by the claim for an `audio_chunk` message: an
`asr_result` to the originating client when the 1000 ms ASR resolves, a
`translation_result` to the originating client 500 ms later, and a
`tts_ready` 800 ms after that to every OPEN client of the opposite role
(agents when the sender is a caller, callers otherwise) and to no one
else. -/
def claimedAudioChunkSends (senderId : Nat) (senderRole : Option String)
    (cl : ClientsByRole) (audioData language : String) (baseMs : Nat) :
    List TimedSend :=
  let asr := (processASR audioData language).2
  let tr := (processTranslation asr.text language
    (getTargetLanguage language)).2
  let tts := (processTTS tr.translatedText (getTargetLanguage language)
    (baseMs + 2300)).2
  let oppositeOpen :=
    (if senderRole = some "caller" then cl.agent else cl.caller).filter
      (fun c => c.readyStateOpen = true)
  { atMs := baseMs + 1000, toClient := senderId
    msg := .asrResult asr.text asr.confidence } ::
  { atMs := baseMs + 1500, toClient := senderId
    msg := .translationResult asr.text tr.translatedText tr.confidence } ::
  oppositeOpen.map (fun c =>
    { atMs := baseMs + 2300, toClient := c.id
      msg := .ttsReady tts.audioUrl tr.translatedText })

/-- C2: with the mock ASR service connected, `handleAudioChunk` performs
exactly the claimed sends — `asr_result` then `translation_result` to the
originating client, then `tts_ready` to every open client of the opposite
role and to no other client — and the three mock stages resolve after
their fixed artificial delays of 1000 ms, 500 ms and 800 ms. -/
theorem handleAudioChunk_pipeline (senderId : Nat)
    (senderRole : Option String) (cl : ClientsByRole)
    (audioData language t src tgt l : String) (baseMs ms : Nat) :
    (processASR audioData language).1 = 1000 ∧
    (processTranslation t src tgt).1 = 500 ∧
    (processTTS t l ms).1 = 800 ∧
    handleAudioChunk true senderId senderRole cl audioData language baseMs
      = claimedAudioChunkSends senderId senderRole cl audioData language
          baseMs := by
  refine ⟨rfl, rfl, rfl, ?_⟩
  simp only [handleAudioChunk, claimedAudioChunkSends]
  simp [asr_text_ne, translated_ne, tts_url_ne]
  simp [processASR, processTranslation, processTTS, Nat.add_assoc]

/-- C3: the mock `processTranslation` returns the fixed Spanish string for
marathi→spanish, the fixed Marathi string for spanish→marathi, and
`Translation not available` for every other pair, always with confidence
0.90 and independent of the input text; likewise `processASR` returns a
fixed transcript per language with confidence 0.95 regardless of the audio
data. -/
theorem mock_translation_asr_fixed (t1 t2 src tgt audio1 audio2 lang :
    String) :
    processTranslation t1 src tgt = processTranslation t2 src tgt ∧
    (processTranslation t1 src tgt).2.confidence = 90 / 100 ∧
    (src = "marathi" → tgt = "spanish" →
      (processTranslation t1 src tgt).2.translatedText = esGreeting) ∧
    (src = "spanish" → tgt = "marathi" →
      (processTranslation t1 src tgt).2.translatedText = mrGreeting) ∧
    (¬(src = "marathi" ∧ tgt = "spanish") →
     ¬(src = "spanish" ∧ tgt = "marathi") →
      (processTranslation t1 src tgt).2.translatedText
        = "Translation not available") ∧
    processASR audio1 lang = processASR audio2 lang ∧
    (processASR audio1 lang).2.confidence = 95 / 100 ∧
    (processASR audio1 lang).2.text
      = (if lang = "marathi" then mrGreeting else esGreeting) := by
  refine ⟨rfl, rfl, ?_, ?_, ?_, rfl, rfl, rfl⟩
  · intro h1 h2; subst h1; subst h2; rfl
  · intro h1 h2; subst h1; subst h2; rfl
  · intro hn1 hn2
    have hk1 : src ++ "-" ++ tgt ≠ "marathi-spanish" := by
      intro h
      have he : "marathi-spanish"
          = "marathi" ++ String.singleton (Char.ofNat 45) ++ "spanish" := by
        rfl
      have := key_split src tgt "marathi" "spanish" (by decide) (by decide)
        (by rw [h, he])
      exact hn1 this
    have hk2 : src ++ "-" ++ tgt ≠ "spanish-marathi" := by
      intro h
      have he : "spanish-marathi"
          = "spanish" ++ String.singleton (Char.ofNat 45) ++ "marathi" := by
        rfl
      have := key_split src tgt "spanish" "marathi" (by decide) (by decide)
        (by rw [h, he])
      exact hn2 this
    simp [processTranslation, translationsTable, hk1, hk2]

/-- C3 witness: instantiation at concrete inputs, including an
off-table pair. -/
theorem mock_translation_asr_fixed_witness :
    (processTranslation "whatever" "marathi" "spanish").2.translatedText
      = esGreeting ∧
    (processTranslation "whatever" "english" "french").2.translatedText
      = "Translation not available" := by
  refine ⟨?_, ?_⟩
  · exact (mock_translation_asr_fixed "whatever" "x" "marathi" "spanish"
      "a" "b" "c").2.2.1 rfl rfl
  · exact (mock_translation_asr_fixed "whatever" "x" "english" "french"
      "a" "b" "c").2.2.2.2.1 (by decide) (by decide)

/-! ## The subscribe path of the backend message handler -/

/-- The lookup `clients[role]` on the `clients` object of
backend/server.js, which has exactly the keys `caller` and `agent`;
any other key yields `undefined`. -/
def clientsLookup (cl : ClientsByRole) (role : String) :
    Option (List WsClient) :=
  if role = "caller" then some cl.caller
  else if role = "agent" then some cl.agent
  else none

/-- Adding a connection to `clients[role]` (only defined on the two real
keys; on any other key the JS lookup is undefined and `.add` throws). -/
def clientsAdd (cl : ClientsByRole) (role : String) (c : WsClient) :
    ClientsByRole :=
  if role = "caller" then { cl with caller := cl.caller ++ [c] }
  else if role = "agent" then { cl with agent := cl.agent ++ [c] }
  else cl

/-- The `subscribe` branch of `handleClientMessage` in backend/server.js:
`ws.role = data.role` runs first, then `clients[data.role].add(ws)`, which
throws a TypeError when `data.role` is neither `caller` nor `agent`.
Returns the mutated connection and registry together with whether the
branch completed or threw. -/
def handleSubscribe (ws : WsClient) (cl : ClientsByRole) (role : String) :
    (WsClient × ClientsByRole) × Except Unit Unit :=
  let ws1 := { ws with role := some role }
  match clientsLookup cl role with
  | some _ => ((ws1, clientsAdd cl role ws1), .ok ())
  | none => ((ws1, cl), .error ())

/-- The `ws.on('message')` wrapper of backend/server.js around a
`subscribe` message: it runs `handleClientMessage` and, if it throws,
replies to the same client with `type: 'error',
message: 'Invalid message format'`.  Returns the connection, the registry
and the replies sent to the client. -/
def onSubscribeMessage (ws : WsClient) (cl : ClientsByRole) (role : String) :
    WsClient × ClientsByRole × List ServerMsg :=
  match handleSubscribe ws cl role with
  | ((ws1, cl1), .ok _) => (ws1, cl1, [])
  | ((ws1, cl1), .error _) =>
      (ws1, cl1, [.errorReply "Invalid message format"])

/-! ## The translate serverless route -/

/-- JavaScript truthiness of an optional string field of a parsed JSON
body: absent, null and the empty string are falsy. -/
def strTruthy : Option String → Bool
  | none => false
  | some s => s ≠ ""

/-- The parsed JSON body of a translate request. -/
structure TranslateBody where
  text : Option String
  targetLang : Option String
deriving DecidableEq, Repr

/-- The JSON response of the translate route: HTTP status plus the
`translated` or `error` field of the payload. -/
structure RouteResponse where
  status : Nat
  translated : Option String
  error : Option String
deriving DecidableEq, Repr

/-- The 400 error message of the translate route. -/
def bothRequiredMsg : String :=
  "Both " ++ sq ++ "text" ++ sq ++ " and " ++ sq ++ "targetLang" ++ sq
    ++ " are required."

/-- The translate route POST handler.  `upstream` models the third-party
chat-completion call: given the forwarded text and target language it
either throws or returns the optional message content
(`chat.choices?.[0]?.message?.content`), which the handler trims and
defaults to the empty string. -/
def translatePOST
    (upstream : String → String → Except Unit (Option String))
    (body : TranslateBody) : RouteResponse :=
  if strTruthy body.text = false ∨ strTruthy body.targetLang = false then
    { status := 400, translated := none, error := some bothRequiredMsg }
  else
    match upstream (body.text.getD "") (body.targetLang.getD "") with
    | .ok content =>
        { status := 200
          translated := some ((content.map (fun s => s.trim)).getD "")
          error := none }
    | .error _ =>
        { status := 500, translated := none
          error := some "Translate failed" }

/-! ## More claim theorems -/

/-- C4 (amended): the incoming-call subscription callback claims a
waiting session — running `handleIncomingCall`, which sets the session to
ringing and assigns the agent — exactly when the `callState`/`isAvailable`
snapshot captured at subscription time is idle and available; because the
closure never re-reads the agent's state, the delivery-time state `cur`
plays no part in the decision, and when the snapshot guard fails the
session row and local state are left untouched. -/
theorem agent_claim_follows_subscription_snapshot (snap : AgentSub)
    (cur : AgentCallState) (agentId : Nat) (lang : String)
    (s : CallSession) :
    (snap.snapCallState = .idle ∧ snap.snapAvail = true →
      onWaitingInsert snap cur agentId lang s
        = ⟨handleIncomingCallUpdate agentId lang s, .incoming, true⟩ ∧
      (onWaitingInsert snap cur agentId lang s).session.status = .ringing ∧
      (onWaitingInsert snap cur agentId lang s).session.agent_id
        = some agentId) ∧
    (¬(snap.snapCallState = .idle ∧ snap.snapAvail = true) →
      onWaitingInsert snap cur agentId lang s = ⟨s, cur, false⟩) ∧
    (∀ cur2 : AgentCallState,
      onWaitingInsert snap cur agentId lang s
        = onWaitingInsert snap cur2 agentId lang s ∨
      (onWaitingInsert snap cur agentId lang s).claimed
        = (onWaitingInsert snap cur2 agentId lang s).claimed) := by
  refine ⟨?_, ?_, ?_⟩
  · intro h
    simp [onWaitingInsert, h, handleIncomingCallUpdate]
  · intro h
    simp [onWaitingInsert, h]
  · intro cur2
    by_cases h : snap.snapCallState = .idle ∧ snap.snapAvail = true
    · exact Or.inl (by simp [onWaitingInsert, h])
    · exact Or.inr (by simp [onWaitingInsert, h])

/-- C4 witness: with an idle-available snapshot the callback claims even
while the agent's current state is connected, and with a non-idle
snapshot it leaves everything untouched. -/
theorem agent_claim_follows_subscription_snapshot_witness :
    (onWaitingInsert ⟨.idle, true⟩ .connected 7 "spanish"
        (startCallInsert 1 "marathi" 5 0)).session.status = .ringing ∧
    onWaitingInsert ⟨.connected, true⟩ .idle 7 "spanish"
        (startCallInsert 1 "marathi" 5 0)
      = ⟨startCallInsert 1 "marathi" 5 0, .idle, false⟩ := by
  refine ⟨?_, ?_⟩
  · exact ((agent_claim_follows_subscription_snapshot ⟨.idle, true⟩
      .connected 7 "spanish" (startCallInsert 1 "marathi" 5 0)).1
      ⟨rfl, rfl⟩).2.1
  · exact (agent_claim_follows_subscription_snapshot ⟨.connected, true⟩
      .idle 7 "spanish" (startCallInsert 1 "marathi" 5 0)).2.1
      (by simp)

/-- C6: the translate handler returns 400 with the fixed error message iff
`text` or `targetLang` is falsy; with both present it forwards the text
and returns 200 with the translated string when the upstream call
succeeds, and 500 with `Translate failed` exactly when the upstream call
throws. -/
theorem translate_route_status
    (upstream : String → String → Except Unit (Option String))
    (body : TranslateBody) :
    ((translatePOST upstream body).status = 400 ↔
      (strTruthy body.text = false ∨ strTruthy body.targetLang = false)) ∧
    ((translatePOST upstream body).status = 400 →
      (translatePOST upstream body).error = some bothRequiredMsg) ∧
    (∀ content, strTruthy body.text = true → strTruthy body.targetLang = true →
      upstream (body.text.getD "") (body.targetLang.getD "") = .ok content →
      translatePOST upstream body
        = { status := 200
            translated := some ((content.map (fun s => s.trim)).getD "")
            error := none }) ∧
    ((translatePOST upstream body).status = 500 ↔
      (strTruthy body.text = true ∧ strTruthy body.targetLang = true ∧
        upstream (body.text.getD "") (body.targetLang.getD "")
          = .error ())) ∧
    ((translatePOST upstream body).status = 500 →
      (translatePOST upstream body).error = some "Translate failed") := by
  by_cases hf : strTruthy body.text = false ∨ strTruthy body.targetLang = false
  · refine ⟨by simp [translatePOST, hf], by simp [translatePOST, hf], ?_, ?_, ?_⟩
    · intro content h1 h2 _
      rcases hf with hf | hf
      · rw [h1] at hf; cases hf
      · rw [h2] at hf; cases hf
    · constructor
      · intro h; simp [translatePOST, hf] at h
      · rintro ⟨h1, h2, -⟩
        rcases hf with hf | hf
        · rw [h1] at hf; cases hf
        · rw [h2] at hf; cases hf
    · intro h; simp [translatePOST, hf] at h
  · have h1 : strTruthy body.text = true := by
      rcases Bool.eq_false_or_eq_true (strTruthy body.text) with h | h
      · exact h
      · exact absurd (Or.inl h) hf
    have h2 : strTruthy body.targetLang = true := by
      rcases Bool.eq_false_or_eq_true (strTruthy body.targetLang) with h | h
      · exact h
      · exact absurd (Or.inr h) hf
    cases hu : upstream (body.text.getD "") (body.targetLang.getD "") with
    | ok content =>
      refine ⟨by simp [translatePOST, hf, hu], ?_, ?_, ?_, ?_⟩
      · intro h; simp [translatePOST, hf, hu] at h
      · intro c _ _ hc
        injection hc with h
        subst h
        simp [translatePOST, hf, hu]
      · simp [translatePOST, hf, hu]
      · intro h; simp [translatePOST, hf, hu] at h
    | error e =>
      refine ⟨by simp [translatePOST, hf, hu], ?_, ?_, ?_, ?_⟩
      · intro h; simp [translatePOST, hf, hu] at h
      · intro c _ _ hc
        simp at hc
      · simp [translatePOST, hf, hu, h1, h2]
      · intro _; simp [translatePOST, hf, hu]

/-- C6 witness: a body missing `targetLang` yields 400, a complete body
with a succeeding upstream yields 200, a throwing upstream yields 500. -/
theorem translate_route_status_witness :
    (translatePOST (fun _ _ => .ok none) ⟨some "hello", none⟩).status
      = 400 ∧
    translatePOST (fun _ _ => .ok none) ⟨some "hello", some "spanish"⟩
      = { status := 200, translated := some "", error := none } ∧
    (translatePOST (fun _ _ => .error ())
        ⟨some "hello", some "spanish"⟩).status = 500 := by
  refine ⟨?_, ?_, ?_⟩
  · exact (translate_route_status (fun _ _ => .ok none)
      ⟨some "hello", none⟩).1.mpr (by decide)
  · have := (translate_route_status (fun _ _ => .ok none)
      ⟨some "hello", some "spanish"⟩).2.2.1 none
      (by decide) (by decide) rfl
    rw [this]
    rfl
  · exact (translate_route_status (fun _ _ => .error ())
      ⟨some "hello", some "spanish"⟩).2.2.2.1.mpr
      ⟨by decide, by decide, rfl⟩

/-- C10: a `subscribe` message whose role is neither `caller` nor `agent`
makes `handleClientMessage` throw; the message handler catches it and
replies with the invalid-format error, yet the connection's `role` field
has already been set to the invalid role, and the client registry is
unchanged. -/
theorem subscribe_invalid_role (ws : WsClient) (cl : ClientsByRole)
    (role : String) (h1 : role ≠ "caller") (h2 : role ≠ "agent") :
    (onSubscribeMessage ws cl role).1.role = some role ∧
    (onSubscribeMessage ws cl role).2.1 = cl ∧
    (onSubscribeMessage ws cl role).2.2
      = [.errorReply "Invalid message format"] ∧
    (handleSubscribe ws cl role).2 = .error () := by
  simp [onSubscribeMessage, handleSubscribe, clientsLookup, h1, h2]

/-- C10 witness: instantiation at the invalid role `observer`. -/
theorem subscribe_invalid_role_witness :
    (onSubscribeMessage ⟨3, none, true⟩ ⟨[], []⟩ "observer").1.role
      = some "observer" ∧
    (onSubscribeMessage ⟨3, none, true⟩ ⟨[], []⟩ "observer").2.2
      = [.errorReply "Invalid message format"] := by
  have := subscribe_invalid_role ⟨3, none, true⟩ ⟨[], []⟩ "observer"
    (by decide) (by decide)
  exact ⟨this.1, this.2.2.1⟩

/-! ## startRealtime (lib/realtime.ts) -/

/-- The environment of one `startRealtime` run: the outcome of each
fallible step.  `micOk` is whether `getUserMedia` succeeds (`micErr` the
rejection), `sessionOk` whether the ephemeral-session fetch returns ok
(`sessionErrText` its error body), `clientSecretValue` the optional
`client_secret.value` of the session JSON, and `sdpOk` whether the SDP
POST to the realtime API returns ok (`sdpErrText` its error body). -/
structure RtEnv where
  micOk : Bool
  micErr : String
  sessionOk : Bool
  sessionErrText : String
  clientSecretValue : Option String
  sdpOk : Bool
  sdpErrText : String
deriving DecidableEq, Repr

/-- The steps `startRealtime` performs, in execution order. -/
inductive RtEvent
  | micAcquired
  | sessionFetched
  | pcCreated
  | dcCreated
  | offerCreated
  | sdpPosted
  | remoteDescSet
deriving DecidableEq, Repr

/-- The instruction text that `setTargetLanguage` pushes over the data
channel in a `session.update`. -/
def translatorInstruction (lang : String) : String :=
  "Live translator. Input is user speech (auto-detected). "
    ++ "Output ONLY the translation in " ++ lang
    ++ ". Speak it and include matching text. No extra words."

/-- The handle `startRealtime` resolves with: the created peer connection
and data channel (by allocation id), what `hangup` closes (the data
channel then the peer connection), and the payloads that
`setTargetLanguage` and `setVoice` push over the data channel. -/
structure RealtimeHandle where
  pc : Nat
  dc : Nat
  hangupCloses : List Nat
  setTargetLanguage : String → String
  setVoice : String → String

/-- The outcome of a `startRealtime` run: the returned handle or the
thrown error, the executed steps in order, and the arguments of the
`onError` calls made. -/
structure RtOutcome where
  result : Except String RealtimeHandle
  events : List RtEvent
  onErrorCalls : List String

/-- The event sequence of a fully successful `startRealtime` run; the
data channel is created before the SDP offer. -/
def successEvents : List RtEvent :=
  [.micAcquired, .sessionFetched, .pcCreated, .dcCreated, .offerCreated,
   .sdpPosted, .remoteDescSet]

/-- `startRealtime` from lib/realtime.ts over an environment.  Ids 0 and
1 name the peer connection and the data channel.  Each explicit `throw`
of the source (and a `getUserMedia` rejection) propagates to the catch
block, which calls `onError` with the error and rethrows it. -/
def startRealtime (env : RtEnv) : RtOutcome :=
  if env.micOk = false then
    { result := .error env.micErr, events := []
      onErrorCalls := [env.micErr] }
  else if env.sessionOk = false then
    let e := "Session route failed: " ++ env.sessionErrText
    { result := .error e, events := [.micAcquired], onErrorCalls := [e] }
  else
    match env.clientSecretValue with
    | none =>
      let e := "Missing ephemeral token"
      { result := .error e, events := [.micAcquired, .sessionFetched]
        onErrorCalls := [e] }
    | some _ =>
      if env.sdpOk = false then
        let e := "SDP exchange failed: " ++ env.sdpErrText
        { result := .error e
          events := [.micAcquired, .sessionFetched, .pcCreated,
            .dcCreated, .offerCreated, .sdpPosted]
          onErrorCalls := [e] }
      else
        { result := .ok
            { pc := 0, dc := 1, hangupCloses := [1, 0]
              setTargetLanguage := translatorInstruction
              setVoice := fun v => v }
          events := successEvents
          onErrorCalls := [] }

/-- C5: `startRealtime` fails — calling `onError` with the error and
rethrowing it — if and only if one of its steps fails: microphone
acquisition, the ephemeral-session fetch, the missing
`client_secret.value`, or the SDP exchange; on success it returns a
handle exposing the created peer connection and data channel, `hangup`,
`setTargetLanguage` and `setVoice`, with the data channel created before
the SDP offer. -/
theorem startRealtime_failure_iff (env : RtEnv) :
    ((startRealtime env).result.isOk = true ↔
      (env.micOk = true ∧ env.sessionOk = true ∧
        env.clientSecretValue.isSome = true ∧ env.sdpOk = true)) ∧
    (∀ h, (startRealtime env).result = .ok h →
      h.pc = 0 ∧ h.dc = 1 ∧ h.hangupCloses = [h.dc, h.pc] ∧
      (∀ lang, h.setTargetLanguage lang = translatorInstruction lang) ∧
      (startRealtime env).events = successEvents ∧
      successEvents.indexOf .dcCreated
        < successEvents.indexOf .offerCreated ∧
      (startRealtime env).onErrorCalls = []) ∧
    (∀ e, (startRealtime env).result = .error e →
      (startRealtime env).onErrorCalls = [e]) := by
  cases hm : env.micOk with
  | false =>
    have hout : startRealtime env
        = { result := .error env.micErr, events := []
            onErrorCalls := [env.micErr] } := by
      simp [startRealtime, hm]
    rw [hout]
    refine ⟨by simp [Except.isOk, Except.toBool, hm], ?_, ?_⟩
    · intro h hres; cases hres
    · intro e hres; injection hres with h; rw [h]
  | true =>
    cases hs : env.sessionOk with
    | false =>
      have hout : startRealtime env
          = { result := .error ("Session route failed: "
                ++ env.sessionErrText)
              events := [.micAcquired]
              onErrorCalls := ["Session route failed: "
                ++ env.sessionErrText] } := by
        simp [startRealtime, hm, hs]
      rw [hout]
      refine ⟨by simp [Except.isOk, Except.toBool, hs], ?_, ?_⟩
      · intro h hres; cases hres
      · intro e hres; injection hres with h; rw [h]
    | true =>
      cases hcs : env.clientSecretValue with
      | none =>
        have hout : startRealtime env
            = { result := .error "Missing ephemeral token"
                events := [.micAcquired, .sessionFetched]
                onErrorCalls := ["Missing ephemeral token"] } := by
          simp [startRealtime, hm, hs, hcs]
        rw [hout]
        refine ⟨by simp [Except.isOk, Except.toBool, hcs], ?_, ?_⟩
        · intro h hres; cases hres
        · intro e hres; injection hres with h; rw [h]
      | some secret =>
        cases hd : env.sdpOk with
        | false =>
          have hout : startRealtime env
              = { result := .error ("SDP exchange failed: "
                    ++ env.sdpErrText)
                  events := [.micAcquired, .sessionFetched, .pcCreated,
                    .dcCreated, .offerCreated, .sdpPosted]
                  onErrorCalls := ["SDP exchange failed: "
                    ++ env.sdpErrText] } := by
            simp [startRealtime, hm, hs, hcs, hd]
          rw [hout]
          refine ⟨by simp [Except.isOk, Except.toBool, hd], ?_, ?_⟩
          · intro h hres; cases hres
          · intro e hres; injection hres with h; rw [h]
        | true =>
          have hout : startRealtime env
              = { result := .ok
                    { pc := 0, dc := 1, hangupCloses := [1, 0]
                      setTargetLanguage := translatorInstruction
                      setVoice := fun v => v }
                  events := successEvents
                  onErrorCalls := [] } := by
            simp [startRealtime, hm, hs, hcs, hd]
          rw [hout]
          refine ⟨by simp [Except.isOk, Except.toBool, hm, hs, hcs, hd], ?_, ?_⟩
          · intro h hres
            injection hres with h1
            subst h1
            exact ⟨rfl, rfl, rfl, fun _ => rfl, rfl, by decide, rfl⟩
          · intro e hres; cases hres

/-- C5 witness: a fully successful environment yields a handle with the
data channel created before the offer; an environment whose session
fetch fails yields one `onError` call carrying the thrown error. -/
theorem startRealtime_failure_iff_witness :
    (startRealtime ⟨true, "m", true, "s", some "tok", true, "d"⟩).result.isOk
      = true ∧
    (startRealtime ⟨true, "m", false, "bad", some "tok", true, "d"⟩
      ).onErrorCalls = ["Session route failed: bad"] := by
  refine ⟨?_, ?_⟩
  · exact (startRealtime_failure_iff
      ⟨true, "m", true, "s", some "tok", true, "d"⟩).1.mpr
      ⟨rfl, rfl, rfl, rfl⟩
  · exact (startRealtime_failure_iff
      ⟨true, "m", false, "bad", some "tok", true, "d"⟩).2.2
      "Session route failed: bad" rfl


/-! ## The call-session signaling flow as a transition system

Callers and agents coordinate over shared `call_sessions` rows through
the hosted realtime database; events interleave asynchronously.  The
model has two caller clients (each owning one session slot) and two agent
clients.  Row updates are applied exactly as the source writes them, with
no status precondition (`.eq('id', ...)` only).  An agent's subscription
carries the `callState`/`isAvailable` snapshot its closure captured when
`listenForIncomingCalls` ran (the installing `useEffect` depends only on
`[user, isAvailable]`), and the INSERT-callback guard reads that
snapshot, not the delivery-time state.  The caller's 30-second timeout in
`startCall` is absent from the model: its closure captured
`callState = 'idle'` from the render that enabled the start button, so
its guard `callState === 'waiting'` is always false and `endCall` never
fires from it; the caller's `endCall` is reachable only from the end
button, enabled in the `connected` state. -/

/-- The fixed identities of the two callers and the two agents, indexed
by a Bool (false = first, true = second). -/
structure Config where
  callerId : Bool → Nat
  callerLang : Bool → String
  agentId : Bool → Nat
  agentLang : Bool → String

/-- One agent client's state: its local `callState`, its `isAvailable`
flag, the snapshot held by its active subscription (none when not
subscribed), and which session slot its `currentSession` points at. -/
structure AgentState where
  callState : AgentCallState
  isAvailable : Bool
  sub : Option AgentSub
  currentSlot : Option Bool
deriving DecidableEq, Repr

/-- A global state: the two session slots, the two callers' local call
states, the two agents, and the INSERT notifications still in flight as
(slot, agent) pairs. -/
structure SysState where
  session0 : Option CallSession
  session1 : Option CallSession
  caller0 : CallerCallState
  caller1 : CallerCallState
  agentA : AgentState
  agentB : AgentState
  pending : List (Bool × Bool)
deriving DecidableEq, Repr

/-- The session slot of caller `i`. -/
def SysState.sessionAt (g : SysState) : Bool → Option CallSession
  | false => g.session0
  | true => g.session1

/-- Replace the session in slot `i`. -/
def SysState.setSession (g : SysState) (i : Bool) (s : CallSession) :
    SysState :=
  match i with
  | false => { g with session0 := some s }
  | true => { g with session1 := some s }

/-- The local call state of caller `i`. -/
def SysState.callerAt (g : SysState) : Bool → CallerCallState
  | false => g.caller0
  | true => g.caller1

/-- Replace the local call state of caller `i`. -/
def SysState.setCaller (g : SysState) (i : Bool) (c : CallerCallState) :
    SysState :=
  match i with
  | false => { g with caller0 := c }
  | true => { g with caller1 := c }

/-- The state of agent `a`. -/
def SysState.agentAt (g : SysState) : Bool → AgentState
  | false => g.agentA
  | true => g.agentB

/-- Replace the state of agent `a`. -/
def SysState.setAgent (g : SysState) (a : Bool) (st : AgentState) :
    SysState :=
  match a with
  | false => { g with agentA := st }
  | true => { g with agentB := st }

/-- The INSERT notifications generated for slot `i`: one per agent whose
subscription is active when the row is inserted. -/
def noticesFor (g : SysState) (i : Bool) : List (Bool × Bool) :=
  (if (g.agentA.sub).isSome then [(i, false)] else [])
    ++ (if (g.agentB.sub).isSome then [(i, true)] else [])

/-- Effect of agent `a` running `listenForIncomingCalls`: the new
subscription's closure captures the agent's current `callState` and
`isAvailable`. -/
def subscribeResult (g : SysState) (a : Bool) : SysState :=
  g.setAgent a
    { g.agentAt a with
      sub := some ⟨(g.agentAt a).callState, (g.agentAt a).isAvailable⟩ }

/-- Effect of caller `i` running `startCall`: the waiting row is
inserted and its INSERT notification is queued for every subscribed
agent. -/
def startCallResult (cfg : Config) (g : SysState) (i : Bool)
    (sid now : Nat) : SysState :=
  { (g.setSession i
      (startCallInsert (cfg.callerId i) (cfg.callerLang i) sid now)
      ).setCaller i .waiting with
    pending := g.pending ++ noticesFor g i }

/-- Effect of delivering the INSERT notification for slot `i` to agent
`a`'s subscription (snapshot `snap`, row `s`): the callback
`onWaitingInsert` runs with the snapshot; on a claim the agent's
`currentSession` is pointed at the slot. -/
def deliverResult (cfg : Config) (g : SysState) (i a : Bool)
    (s : CallSession) (snap : AgentSub) : SysState :=
  let r := onWaitingInsert snap (g.agentAt a).callState (cfg.agentId a)
    (cfg.agentLang a) s
  { (g.setSession i r.session).setAgent a
      { g.agentAt a with
        callState := r.callState
        currentSlot :=
          if r.claimed = true then some i else (g.agentAt a).currentSlot }
      with
    pending := g.pending.erase (i, a) }

/-- Effect of agent `a` answering the call in its current slot `i`. -/
def answerResult (g : SysState) (a i : Bool) (s : CallSession) : SysState :=
  (g.setSession i (answerCallUpdate s)).setAgent a
    { g.agentAt a with callState := .connected }

/-- Effect of agent `a` ending the call in its current slot `i`. -/
def agentEndResult (g : SysState) (a i : Bool) (s : CallSession)
    (now dur : Nat) : SysState :=
  (g.setSession i (endCallUpdate now dur s)).setAgent a
    { g.agentAt a with callState := .ended }

/-- Effect of caller `i` ending its call. -/
def callerEndResult (g : SysState) (i : Bool) (s : CallSession)
    (now dur : Nat) : SysState :=
  (g.setSession i (endCallUpdate now dur s)).setCaller i .ended

/-- One signaling event, as performed by the source code:
`subscribe` installs an agent's `waiting_calls` subscription (enabled
while available, capturing the closure snapshot); `startCall` inserts a
waiting row; `deliverInsert` delivers a queued INSERT notification to one
agent's callback; `callerSees*` deliver the caller's row-update
subscription events; `answerCall` is the agent's answer click (enabled in
its local `incoming` state, updating the row with no status check); the
end buttons are enabled in the respective `connected` local states. -/
inductive Step (cfg : Config) : SysState → SysState → Prop
  | subscribe (g : SysState) (a : Bool) :
      (g.agentAt a).isAvailable = true →
      Step cfg g (subscribeResult g a)
  | startCall (g : SysState) (i : Bool) (sid now : Nat) :
      g.callerAt i = .idle → g.sessionAt i = none →
      Step cfg g (startCallResult cfg g i sid now)
  | deliverInsert (g : SysState) (i a : Bool) (s : CallSession)
      (snap : AgentSub) :
      (i, a) ∈ g.pending →
      g.sessionAt i = some s →
      (g.agentAt a).sub = some snap →
      Step cfg g (deliverResult cfg g i a s snap)
  | callerSeesRinging (g : SysState) (i : Bool) (s : CallSession) :
      g.sessionAt i = some s → s.status = .ringing →
      g.callerAt i = .waiting →
      Step cfg g (g.setCaller i .ringing)
  | callerSeesConnected (g : SysState) (i : Bool) (s : CallSession) :
      g.sessionAt i = some s → s.status = .connected →
      (g.callerAt i = .waiting ∨ g.callerAt i = .ringing) →
      Step cfg g (g.setCaller i .connected)
  | answerCall (g : SysState) (a i : Bool) (s : CallSession) :
      (g.agentAt a).callState = .incoming →
      (g.agentAt a).currentSlot = some i →
      g.sessionAt i = some s →
      Step cfg g (answerResult g a i s)
  | agentEndButton (g : SysState) (a i : Bool) (s : CallSession)
      (now dur : Nat) :
      (g.agentAt a).callState = .connected →
      (g.agentAt a).currentSlot = some i →
      g.sessionAt i = some s →
      Step cfg g (agentEndResult g a i s now dur)
  | callerEndButton (g : SysState) (i : Bool) (s : CallSession)
      (now dur : Nat) :
      g.callerAt i = .connected → g.sessionAt i = some s →
      Step cfg g (callerEndResult g i s now dur)

/-- An agent client in its initial state: idle, available, not yet
subscribed. -/
def initAgent : AgentState := ⟨.idle, true, none, none⟩

/-- The initial state: no sessions, both callers idle, both agents
fresh. -/
def initState : SysState :=
  ⟨none, none, .idle, .idle, initAgent, initAgent, []⟩

/-- Concrete identities for the counterexample runs: callers 1 and 4
speaking marathi, agents 2 (spanish) and 3 (english). -/
def cfgC : Config :=
  ⟨fun i => if i then 4 else 1, fun _ => "marathi",
   fun a => if a then 3 else 2, fun a => if a then "english" else "spanish"⟩

/-- The snapshot captured by a subscription installed while idle and
available. -/
def subbedIdle : AgentSub := ⟨.idle, true⟩

/-- Slot-0 session as inserted by caller 1. -/
def bkS1 : CallSession := startCallInsert 1 "marathi" 10 0

/-- The slot-0 session after agent 2 claimed it. -/
def bkS2 : CallSession := handleIncomingCallUpdate 2 "spanish" bkS1

/-- The slot-0 session after agent 2 answered. -/
def bkS3 : CallSession := answerCallUpdate bkS2

/-- The slot-0 session after agent 2 ended the call. -/
def bkS4 : CallSession := endCallUpdate 30 25 bkS3

/-- The slot-0 session after agent 3's late notification re-claimed the
already-ended session. -/
def bkS5 : CallSession := handleIncomingCallUpdate 3 "english" bkS4

/-- State after agent A subscribed. -/
def bkG1 : SysState :=
  ⟨none, none, .idle, .idle, ⟨.idle, true, some subbedIdle, none⟩,
   initAgent, []⟩

/-- State after both agents subscribed. -/
def bkG2 : SysState :=
  ⟨none, none, .idle, .idle, ⟨.idle, true, some subbedIdle, none⟩,
   ⟨.idle, true, some subbedIdle, none⟩, []⟩

/-- State after caller 1's `startCall`: both agents' notifications are in
flight. -/
def bkG3 : SysState :=
  ⟨some bkS1, none, .waiting, .idle, ⟨.idle, true, some subbedIdle, none⟩,
   ⟨.idle, true, some subbedIdle, none⟩, [(false, false), (false, true)]⟩

/-- State after agent A's notification was delivered: A claimed the
session; B's notification is still in flight. -/
def bkG4 : SysState :=
  ⟨some bkS2, none, .waiting, .idle,
   ⟨.incoming, true, some subbedIdle, some false⟩,
   ⟨.idle, true, some subbedIdle, none⟩, [(false, true)]⟩

/-- State after agent A answered. -/
def bkG5 : SysState :=
  ⟨some bkS3, none, .waiting, .idle,
   ⟨.connected, true, some subbedIdle, some false⟩,
   ⟨.idle, true, some subbedIdle, none⟩, [(false, true)]⟩

/-- State after agent A ended the call; B's notification is still in
flight. -/
def bkG6 : SysState :=
  ⟨some bkS4, none, .waiting, .idle,
   ⟨.ended, true, some subbedIdle, some false⟩,
   ⟨.idle, true, some subbedIdle, none⟩, [(false, true)]⟩

/-- State after agent B's late notification re-claimed the ended
session. -/
def bkG7 : SysState :=
  ⟨some bkS5, none, .waiting, .idle,
   ⟨.ended, true, some subbedIdle, some false⟩,
   ⟨.incoming, true, some subbedIdle, some false⟩, []⟩

/-- C1 counterexample: a reachable execution in which a session moves
backward in the signaling order.  Two agents subscribe; caller 1's
`startCall` queues an INSERT notification for each; agent 2 claims,
answers and ends the call; agent 3's notification, delivered late, runs
`handleIncomingCall`, whose row update carries no status precondition
and whose guard reads the idle-available subscription snapshot — so the
ended session is set back to ringing, rank 1 after rank 3. -/
theorem late_second_agent_moves_ended_backward :
    Relation.ReflTransGen (Step cfgC) initState bkG6 ∧
    Step cfgC bkG6 bkG7 ∧
    bkG6.session0.map CallSession.status = some .ended ∧
    bkG7.session0.map CallSession.status = some .ringing ∧
    SessionStatus.rank .ringing < SessionStatus.rank .ended := by
  refine ⟨?_, ?_, rfl, rfl, by decide⟩
  · exact Relation.ReflTransGen.head (Step.subscribe initState false rfl)
      (Relation.ReflTransGen.head (Step.subscribe bkG1 true rfl)
      (Relation.ReflTransGen.head (Step.startCall bkG2 false 10 0 rfl rfl)
      (Relation.ReflTransGen.head
        (Step.deliverInsert bkG3 false false bkS1 subbedIdle (by decide)
          rfl rfl)
      (Relation.ReflTransGen.head
        (Step.answerCall bkG4 false false bkS2 rfl rfl rfl)
      (Relation.ReflTransGen.head
        (Step.agentEndButton bkG5 false false bkS3 30 25 rfl rfl rfl)
      Relation.ReflTransGen.refl)))))
  · exact Step.deliverInsert bkG6 false true bkS4 subbedIdle (by decide)
      rfl rfl

/-- Slot-1 session as inserted by caller 4 while agent 2 is connected to
the slot-0 call. -/
def cwT1 : CallSession := startCallInsert 4 "marathi" 11 5

/-- The slot-1 session after connected agent 2 claimed it anyway. -/
def cwT2 : CallSession := handleIncomingCallUpdate 2 "spanish" cwT1

/-- State after caller 4's `startCall` while agent A is connected to the
slot-0 call: notifications for slot 1 are queued for both agents. -/
def cwG6 : SysState :=
  ⟨some bkS3, some cwT1, .waiting, .waiting,
   ⟨.connected, true, some subbedIdle, some false⟩,
   ⟨.idle, true, some subbedIdle, none⟩,
   [(false, true), (true, false), (true, true)]⟩

/-- State after the slot-1 notification reached agent A: despite being
connected, A claimed the new session (its subscription snapshot is still
idle-available) and its local state was knocked back to incoming. -/
def cwG7 : SysState :=
  ⟨some bkS3, some cwT2, .waiting, .waiting,
   ⟨.incoming, true, some subbedIdle, some true⟩,
   ⟨.idle, true, some subbedIdle, none⟩,
   [(false, true), (true, true)]⟩

/-- C4 counterexample: a reachable execution in which an agent whose
`callState` is `connected` claims a newly inserted waiting session.  The
subscription installed while the agent was idle is not re-created when
`callState` changes, so its callback still compares the captured
idle-available snapshot and runs `handleIncomingCall` while the agent is
in a call. -/
theorem connected_agent_claims_waiting_call :
    Relation.ReflTransGen (Step cfgC) initState cwG6 ∧
    Step cfgC cwG6 cwG7 ∧
    cwG6.agentA.callState = .connected ∧
    cwG6.session1 = some cwT1 ∧
    cwT1.status = .waiting ∧ cwT1.agent_id = none ∧
    cwG7.session1 = some cwT2 ∧
    cwT2.agent_id = some 2 ∧ cwT2.status = .ringing := by
  refine ⟨?_, ?_, rfl, rfl, rfl, rfl, rfl, rfl, rfl⟩
  · exact Relation.ReflTransGen.head (Step.subscribe initState false rfl)
      (Relation.ReflTransGen.head (Step.subscribe bkG1 true rfl)
      (Relation.ReflTransGen.head (Step.startCall bkG2 false 10 0 rfl rfl)
      (Relation.ReflTransGen.head
        (Step.deliverInsert bkG3 false false bkS1 subbedIdle (by decide)
          rfl rfl)
      (Relation.ReflTransGen.head
        (Step.answerCall bkG4 false false bkS2 rfl rfl rfl)
      (Relation.ReflTransGen.head (Step.startCall bkG5 true 11 5 rfl rfl)
      Relation.ReflTransGen.refl)))))
  · exact Step.deliverInsert cwG6 true false cwT1 subbedIdle (by decide)
      rfl rfl

/-- C1 (amended): each operation writes the claimed status — `startCall`
creates the session waiting, `handleIncomingCall` sets it ringing,
`answerCall` sets it connected, `endCall` sets it ended with `ended_at`
and `duration` — and along the canonical run (one agent subscribes, the
caller starts, the agent claims, answers and ends) the statuses follow
waiting → ringing → connected → ended in strictly forward order, the run
being reachable; the no-backward property holds for this flow, though not
for every reachable interleaving. -/
theorem callSession_canonical_forward (cfg : Config) (sid t0 t1 dur : Nat) :
    let s1 := startCallInsert (cfg.callerId false) (cfg.callerLang false)
      sid t0
    let s2 := handleIncomingCallUpdate (cfg.agentId false)
      (cfg.agentLang false) s1
    let s3 := answerCallUpdate s2
    let s4 := endCallUpdate t1 dur s3
    s1.status = .waiting ∧ s2.status = .ringing ∧ s3.status = .connected ∧
    s4.status = .ended ∧ s4.ended_at = some t1 ∧ s4.duration = some dur ∧
    List.Chain' (fun a b => SessionStatus.rank a < SessionStatus.rank b)
      [s1.status, s2.status, s3.status, s4.status] ∧
    Relation.ReflTransGen (Step cfg) initState
      ⟨some s4, none, .waiting, .idle,
       ⟨.ended, true, some subbedIdle, some false⟩, initAgent, []⟩ := by
  intro s1 s2 s3 s4
  refine ⟨rfl, rfl, rfl, rfl, rfl, rfl, ?_, ?_⟩
  · simp only [List.chain'_cons, List.chain'_singleton, and_true]
    refine ⟨?_, ?_, ?_⟩
    · show (0 : Nat) < 1
      norm_num
    · show (1 : Nat) < 2
      norm_num
    · show (2 : Nat) < 3
      norm_num
  · exact Relation.ReflTransGen.head (Step.subscribe initState false rfl)
      (Relation.ReflTransGen.head
        (Step.startCall _ false sid t0 rfl rfl)
      (Relation.ReflTransGen.head
        (Step.deliverInsert _ false false s1 subbedIdle
          (List.mem_cons_self (false, false) []) rfl rfl)
      (Relation.ReflTransGen.head
        (Step.answerCall _ false false s2 rfl rfl rfl)
      (Relation.ReflTransGen.head
        (Step.agentEndButton _ false false s3 t1 dur rfl rfl rfl)
      Relation.ReflTransGen.refl))))

end GLS
